import Mathlib

/-
Verification development for the pyLOOKinRemote library
(src/src/pylookinremote/pylookinremote.py).

The embedding below models, over Lean types:
  - the raw IR command model of class IRRemoteCommandRaw: the stored
    sequence of signed integers, the stored CPython hash of that tuple,
    the equality test, the approximate similarity comparison, and the
    clustering routine _groupCommands (object identity is modelled by
    the index of a command in the input list);
  - the AC status codec of class ACRemote.Status: the three enumerated
    bit fields, the validating setters, fromStatusBytes, toStatusBytes
    and the Status equality test;
  - the status confirmation loop ACRemote.statusSet, with wall clock
    time idealised (the 5 second sleep dominates each poll, so each
    30 second window holds exactly 6 polls);
  - the learning path IRRemoteFunction.fromIRSensor after the capture
    is complete (selection of the most common group and the
    IRRemoteFunction constructor call).

Python exceptions are modelled by Option/Except: a none/error value
means the corresponding Python call raises instead of returning.
Python float arithmetic in the comparator appears only as division of
machine integers compared against the literals 0.10 and 0.02; it is
modelled exactly over the rationals.
-/

namespace PyLookinRemote

/-! ### CPython hashing of tuples of ints

`IRRemoteCommandRaw.__init__` stores `self._hash = hash(sequence)` where
`sequence` is a tuple of Python ints, and `__eq__` compares only these
stored hashes.  CPython hashes an int by reducing it modulo the Mersenne
prime 2^61 - 1 (preserving sign, with a final hash of -1 replaced by -2)
and hashes a tuple with the xxHash based combination of tupleobject.c
(CPython 3.8 and later).  Neither hash is randomised by PYTHONHASHSEED,
so both are deterministic functions, embedded here.
-/

/-- CPython hash of a Python int: reduction modulo 2^61 - 1 with the sign
preserved, and -1 mapped to -2. -/
def pyHashInt (n : ℤ) : ℤ :=
  let h : ℤ := if 0 ≤ n then n % (2 ^ 61 - 1) else -((-n) % (2 ^ 61 - 1))
  if h = -1 then -2 else h

/-- The int hash viewed as an unsigned 64 bit lane (Py_uhash_t). -/
def pyLane (n : ℤ) : ℕ :=
  (pyHashInt n % (2 ^ 64 : ℤ)).toNat

def xxPrime1 : ℕ := 11400714785074694791

def xxPrime2 : ℕ := 14029467366897019727

def xxPrime5 : ℕ := 2870177450012600261

/-- Rotation left by 31 on 64 bits, as in _PyHASH_XXROTATE. -/
def xxRotate (x : ℕ) : ℕ :=
  ((x <<< 31) % 2 ^ 64) + (x >>> 33)

/-- One lane combination step of the CPython tuple hash. -/
def pyHashStep (acc lane : ℕ) : ℕ :=
  (xxRotate ((acc + lane * xxPrime2) % 2 ^ 64) * xxPrime1) % 2 ^ 64

/-- CPython hash of a tuple of ints, as the unsigned 64 bit value. -/
def pyHashSeq (s : List ℤ) : ℕ :=
  let acc := s.foldl (fun acc n => pyHashStep acc (pyLane n)) xxPrime5
  let acc := (acc + (s.length ^^^ (xxPrime5 ^^^ 3527539))) % 2 ^ 64
  if acc = 2 ^ 64 - 1 then 1546275796 else acc

/-! ### IRRemoteCommandRaw -/

/-- Model of `IRRemoteCommandRaw`: the parsed sequence of signed sample
durations plus the carrier frequency.  The stored `_hash` field is
recomputed on demand by `pyHashSeq` (it is a pure function of the
sequence). -/
structure IRRemoteCommandRaw where
  sequence : List ℤ
  freqCarrier_Hz : ℤ := 38000
  deriving DecidableEq

/-- Model of `IRRemoteCommandRaw.__eq__`: compares the stored hashes of the two
sequences only (both operands being raw commands); the carrier frequency
does not participate. -/
def eqRaw (lhs rhs : IRRemoteCommandRaw) : Bool :=
  pyHashSeq lhs.sequence == pyHashSeq rhs.sequence

/-- The relative difference of one zipped sample pair, as the Python code
computes it: `abs(abs(lhsSample) - abs(rhsSample)) / (abs(lhsSample) +
abs(rhsSample))`.  The operands are machine integers, so the quotient is
this exact rational (Python float division introduces no deviation at the
scale of realisable inputs, and the thresholds of the comparison below
are compared exactly). -/
def pctDiff (lhsSample rhsSample : ℤ) : ℚ :=
  |(|(lhsSample : ℚ)| - |(rhsSample : ℚ)|)| / (|(lhsSample : ℚ)| + |(rhsSample : ℚ)|)

/-- Model of `IRRemoteCommandRaw._compare`.  Returns `none` where the Python code
raises ZeroDivisionError: when some zipped sample pair has
`abs(lhs) + abs(rhs) == 0`, or when both sequences are empty (the final
`samplesNumDiff / samplesNum` divides by zero).  The two threshold tests
are encoded by exact cross multiplication, so that the model is
executable by kernel reduction:
`pctDiff > 0.10` is `(den) < 10 * (num)` for a positive denominator, and
`0.02 >= samplesNumDiff / samplesNum` is
`50 * samplesNumDiff <= samplesNum` for positive `samplesNum`; the
lemmas `pctDiff_gt_iff` and `cmdRatio_le_iff` below prove both encodings
equal to the rational level formulas.  The function returns
`commandDiffThreshold >= commandDiffPct` (the computed `isMatch`
variable, which additionally requires equal lengths, is only printed,
not returned). -/
def compareCmds (lhs rhs : IRRemoteCommandRaw) : Option Bool :=
  let samplesNumDiff₀ : ℕ := ((lhs.sequence.length : ℤ) - rhs.sequence.length).natAbs
  let samplesNum : ℕ := max lhs.sequence.length rhs.sequence.length
  if (lhs.sequence.zip rhs.sequence).any (fun p => p.1.natAbs + p.2.natAbs == 0) then
    none
  else if samplesNum == 0 then
    none
  else
    let samplesNumDiff : ℕ := samplesNumDiff₀ +
      (lhs.sequence.zip rhs.sequence).countP (fun p =>
        decide (p.1.natAbs + p.2.natAbs < 10 * (|p.1| - |p.2|).natAbs))
    some (decide (50 * samplesNumDiff ≤ samplesNum))

/-- Model of `IRRemoteCommandRaw.isSimilar`: `self == rhs or _compare(self, rhs)`,
with the short circuit of Python `or` (when `__eq__` is true, `_compare`
is never evaluated, so its possible ZeroDivisionError is skipped). -/
def isSimilar (lhs rhs : IRRemoteCommandRaw) : Option Bool :=
  if eqRaw lhs rhs then some true else compareCmds lhs rhs

/-! ### ACRemote.Status: the 16 bit AC status codec

The three mode fields are the Python enumerations `ACRemote.OPERATINGMODE`,
`ACRemote.FANSPEEDMODE` and `ACRemote.SWINGMODE`, each with 16 members.
`value` gives the member value from the source listing and `fromValue`
models the Python enum call `ENUM(value)`, which raises ValueError (here
`none`) for an int that is not a member value.
-/

inductive OPERATINGMODE
  | OFF | AUTO | COOL | HEAT
  | UNKNOWN04 | UNKNOWN05 | UNKNOWN06 | UNKNOWN07
  | UNKNOWN08 | UNKNOWN09 | UNKNOWN10 | UNKNOWN11
  | UNKNOWN12 | UNKNOWN13 | UNKNOWN14 | UNKNOWN15
  deriving DecidableEq, Fintype

def OPERATINGMODE.value : OPERATINGMODE → ℕ
  | .OFF => 0x0000
  | .AUTO => 0x1000
  | .COOL => 0x2000
  | .HEAT => 0x3000
  | .UNKNOWN04 => 0x4000
  | .UNKNOWN05 => 0x5000
  | .UNKNOWN06 => 0x6000
  | .UNKNOWN07 => 0x7000
  | .UNKNOWN08 => 0x8000
  | .UNKNOWN09 => 0x9000
  | .UNKNOWN10 => 0xA000
  | .UNKNOWN11 => 0xB000
  | .UNKNOWN12 => 0xC000
  | .UNKNOWN13 => 0xD000
  | .UNKNOWN14 => 0xE000
  | .UNKNOWN15 => 0xF000

def OPERATINGMODE.fromValue (n : ℕ) : Option OPERATINGMODE :=
  if n = 0x0000 then some .OFF
  else if n = 0x1000 then some .AUTO
  else if n = 0x2000 then some .COOL
  else if n = 0x3000 then some .HEAT
  else if n = 0x4000 then some .UNKNOWN04
  else if n = 0x5000 then some .UNKNOWN05
  else if n = 0x6000 then some .UNKNOWN06
  else if n = 0x7000 then some .UNKNOWN07
  else if n = 0x8000 then some .UNKNOWN08
  else if n = 0x9000 then some .UNKNOWN09
  else if n = 0xA000 then some .UNKNOWN10
  else if n = 0xB000 then some .UNKNOWN11
  else if n = 0xC000 then some .UNKNOWN12
  else if n = 0xD000 then some .UNKNOWN13
  else if n = 0xE000 then some .UNKNOWN14
  else if n = 0xF000 then some .UNKNOWN15
  else none

inductive FANSPEEDMODE
  | UNKNOWN00 | MINIMUM | MEDIUM | MAXIMUM
  | UNKNOWN04 | UNKNOWN05 | UNKNOWN06 | UNKNOWN07
  | UNKNOWN08 | UNKNOWN09 | AUTO | UNKNOWN11
  | UNKNOWN12 | UNKNOWN13 | UNKNOWN14 | UNKNOWN15
  deriving DecidableEq, Fintype

def FANSPEEDMODE.value : FANSPEEDMODE → ℕ
  | .UNKNOWN00 => 0x0000
  | .MINIMUM => 0x0010
  | .MEDIUM => 0x0020
  | .MAXIMUM => 0x0030
  | .UNKNOWN04 => 0x0040
  | .UNKNOWN05 => 0x0050
  | .UNKNOWN06 => 0x0060
  | .UNKNOWN07 => 0x0070
  | .UNKNOWN08 => 0x0080
  | .UNKNOWN09 => 0x0090
  | .AUTO => 0x00A0
  | .UNKNOWN11 => 0x00B0
  | .UNKNOWN12 => 0x00C0
  | .UNKNOWN13 => 0x00D0
  | .UNKNOWN14 => 0x00E0
  | .UNKNOWN15 => 0x00F0

def FANSPEEDMODE.fromValue (n : ℕ) : Option FANSPEEDMODE :=
  if n = 0x0000 then some .UNKNOWN00
  else if n = 0x0010 then some .MINIMUM
  else if n = 0x0020 then some .MEDIUM
  else if n = 0x0030 then some .MAXIMUM
  else if n = 0x0040 then some .UNKNOWN04
  else if n = 0x0050 then some .UNKNOWN05
  else if n = 0x0060 then some .UNKNOWN06
  else if n = 0x0070 then some .UNKNOWN07
  else if n = 0x0080 then some .UNKNOWN08
  else if n = 0x0090 then some .UNKNOWN09
  else if n = 0x00A0 then some .AUTO
  else if n = 0x00B0 then some .UNKNOWN11
  else if n = 0x00C0 then some .UNKNOWN12
  else if n = 0x00D0 then some .UNKNOWN13
  else if n = 0x00E0 then some .UNKNOWN14
  else if n = 0x00F0 then some .UNKNOWN15
  else none

inductive SWINGMODE
  | UNKNOWN00 | UNKNOWN01 | UNKNOWN02 | UNKNOWN03
  | UNKNOWN04 | UNKNOWN05 | UNKNOWN06 | UNKNOWN07
  | UNKNOWN08 | UNKNOWN09 | UNKNOWN10 | UNKNOWN11
  | UNKNOWN12 | UNKNOWN13 | UNKNOWN14 | UNKNOWN15
  deriving DecidableEq, Fintype

def SWINGMODE.value : SWINGMODE → ℕ
  | .UNKNOWN00 => 0x0000
  | .UNKNOWN01 => 0x0001
  | .UNKNOWN02 => 0x0002
  | .UNKNOWN03 => 0x0003
  | .UNKNOWN04 => 0x0004
  | .UNKNOWN05 => 0x0005
  | .UNKNOWN06 => 0x0006
  | .UNKNOWN07 => 0x0007
  | .UNKNOWN08 => 0x0008
  | .UNKNOWN09 => 0x0009
  | .UNKNOWN10 => 0x000A
  | .UNKNOWN11 => 0x000B
  | .UNKNOWN12 => 0x000C
  | .UNKNOWN13 => 0x000D
  | .UNKNOWN14 => 0x000E
  | .UNKNOWN15 => 0x000F

def SWINGMODE.fromValue (n : ℕ) : Option SWINGMODE :=
  if n = 0x0000 then some .UNKNOWN00
  else if n = 0x0001 then some .UNKNOWN01
  else if n = 0x0002 then some .UNKNOWN02
  else if n = 0x0003 then some .UNKNOWN03
  else if n = 0x0004 then some .UNKNOWN04
  else if n = 0x0005 then some .UNKNOWN05
  else if n = 0x0006 then some .UNKNOWN06
  else if n = 0x0007 then some .UNKNOWN07
  else if n = 0x0008 then some .UNKNOWN08
  else if n = 0x0009 then some .UNKNOWN09
  else if n = 0x000A then some .UNKNOWN10
  else if n = 0x000B then some .UNKNOWN11
  else if n = 0x000C then some .UNKNOWN12
  else if n = 0x000D then some .UNKNOWN13
  else if n = 0x000E then some .UNKNOWN14
  else if n = 0x000F then some .UNKNOWN15
  else none

/-- Model of `ACRemote.Status`.  The derived field `tempTarget_F`
(computed by `celsius2Fahrenheit` from `tempTarget_C` on every set and
read by no claim, no comparison and no encoder) is omitted. -/
structure Status where
  operatingMode : OPERATINGMODE
  tempTarget_C : ℤ
  fanSpeedMode : FANSPEEDMODE
  swingMode : SWINGMODE
  deriving DecidableEq

/-- Model of `ACRemote.Status.tempTargetSet` for an int argument: raises ValueError
(`none`) outside [16, 31], then stores `min(31, max(16, int(...)))`.
Returns the stored value. -/
def tempTargetSet (tempTarget_C : ℤ) : Option ℤ :=
  if 31 < tempTarget_C ∨ 16 > tempTarget_C then none
  else some (min 31 (max 16 tempTarget_C))

/-- Model of `ACRemote.Status.__init__` for int field arguments, calling the four
validating setters in source order (`operatingModeSet`, `tempTargetSet`,
`fanSpeedModeSet`, `swingModeSet`); each mode setter coerces its int
through the enumeration, raising ValueError (`none`) for a non member. -/
def statusInit (operatingMode : ℕ) (tempTarget_C : ℤ) (fanSpeedMode : ℕ) (swingMode : ℕ) :
    Option Status := do
  let om ← OPERATINGMODE.fromValue operatingMode
  let t ← tempTargetSet tempTarget_C
  let fan ← FANSPEEDMODE.fromValue fanSpeedMode
  let sw ← SWINGMODE.fromValue swingMode
  some ⟨om, t, fan, sw⟩

/-- Model of `ACRemote.Status.fromStatusBytes` for an int argument. -/
def fromStatusBytes (statusBytes : ℕ) : Option Status :=
  statusInit (statusBytes &&& 0xF000)
    ((((statusBytes &&& 0x0F00) >>> 8) + 16 : ℕ) : ℤ)
    (statusBytes &&& 0x00F0)
    (statusBytes &&& 0x000F)

/-- Model of `ACRemote.Status.toStatusBytes`.  For every status built through the
validating setters `tempTarget_C` lies in [16, 31], where the `toNat` of
the model is exact. -/
def toStatusBytes (s : Status) : ℕ :=
  s.operatingMode.value ||| (((s.tempTarget_C - 16).toNat) <<< 8)
    ||| s.fanSpeedMode.value ||| s.swingMode.value

/-- Model of `ACRemote.Status.__eq__`: compares the four fields (the Python `is`
comparisons are equality here: enum members are singletons and the int
field holds values in the CPython small int cache range). -/
def statusEq (self rhs : Status) : Bool :=
  decide (rhs.operatingMode = self.operatingMode)
    && decide (rhs.tempTarget_C = self.tempTarget_C)
    && decide (rhs.fanSpeedMode = self.fanSpeedMode)
    && decide (rhs.swingMode = self.swingMode)

/-! ### IRRemoteCommandRaw._groupCommands

The Python routine receives a list of distinct command objects and keeps
two parallel maps: `retCommands` from a representative command object to
the list of its group members, and `retIDs` from the representative
object id to the set of member object ids (id based deduplication).  In
this embedding a command is identified by its index in the input list,
which models CPython object identity exactly (the capture loop creates a
fresh object per captured signal).  Because member lists never hold
duplicates, the `retIDs` sets coincide with the member lists and a
single association list `(representative index, member indices)` in
insertion order models both structures.  Representative keys are pairwise
non equal under `__eq__` (a new group is only opened when the scan over
existing keys found no similar key, and `isSimilar` subsumes `__eq__`),
so dict lookup by key object is lookup by index here.  A `none` result
models an exception escaping from some `isSimilar` call.
-/

/-- The pairs `combinations(irRemoteCommands, 2)` visits, as index pairs
in lexicographic order. -/
def combPairs (n : ℕ) : List (ℕ × ℕ) :=
  (List.range n).flatMap (fun i => ((List.range n).drop (i + 1)).map (fun j => (i, j)))

/-- Evaluation of `lhs.isSimilar(rhs)` for the commands at indices `i` and `j`. -/
def simAt (cmds : List IRRemoteCommandRaw) (i j : ℕ) : Option Bool :=
  match cmds[i]?, cmds[j]? with
  | some x, some y => isSimilar x y
  | _, _ => none

/-- Whether index `i` is a group representative (`lhsID in retIDs`). -/
def isRep (st : List (ℕ × List ℕ)) (i : ℕ) : Bool :=
  st.any (fun g => g.1 == i)

/-- Append `j` to the group of representative `k` unless already a member
(`if rhsID not in retIDs[lhsID]: retCommands[lhs].append(rhs)`). -/
def addMember (st : List (ℕ × List ℕ)) (k j : ℕ) : List (ℕ × List ℕ) :=
  st.map (fun g => if g.1 == k then (g.1, if j ∈ g.2 then g.2 else g.2 ++ [j]) else g)

/-- The scan over existing representatives for a similar pair neither of
whose members is itself a representative: every key similar to either
member absorbs both (without early exit); returns the `matchFound` flag
and the updated groups.  The Python condition
`key.isSimilar(lhs) or key.isSimilar(rhs)` short circuits, modelled by
the nested match. -/
def scanGroups (cmds : List IRRemoteCommandRaw) (i j : ℕ) :
    List (ℕ × List ℕ) → Option (Bool × List (ℕ × List ℕ))
  | [] => some (false, [])
  | (k, mem) :: rest =>
    let hit : Option Bool :=
      match simAt cmds k i with
      | none => none
      | some true => some true
      | some false => simAt cmds k j
    match hit with
    | none => none
    | some true =>
      match scanGroups cmds i j rest with
      | none => none
      | some (_, rest') =>
        let mem₁ := if i ∈ mem then mem else mem ++ [i]
        let mem₂ := if j ∈ mem₁ then mem₁ else mem₁ ++ [j]
        some (true, (k, mem₂) :: rest')
    | some false =>
      match scanGroups cmds i j rest with
      | none => none
      | some (found, rest') => some (found, (k, mem) :: rest')

/-- Processing of one pair of the `combinations` loop. -/
def processPair (cmds : List IRRemoteCommandRaw) (st : List (ℕ × List ℕ)) (p : ℕ × ℕ) :
    Option (List (ℕ × List ℕ)) :=
  match simAt cmds p.1 p.2 with
  | none => none
  | some false => some st
  | some true =>
    if isRep st p.1 then
      some (addMember st p.1 p.2)
    else if isRep st p.2 then
      some (addMember st p.2 p.1)
    else
      match scanGroups cmds p.1 p.2 st with
      | none => none
      | some (found, st') =>
        if found then some st' else some (st' ++ [(p.1, [p.1, p.2])])

/-- The `combinations` loop in list order. -/
def runPairs (cmds : List IRRemoteCommandRaw) :
    List (ℕ × List ℕ) → List (ℕ × ℕ) → Option (List (ℕ × List ℕ))
  | st, [] => some st
  | st, p :: rest =>
    match processPair cmds st p with
    | none => none
    | some st' => runPairs cmds st' rest

/-- Model of `IRRemoteCommandRaw._groupCommands`: run all pairs, then discard the
groups with fewer than `minMatches` members. -/
def groupCommands (cmds : List IRRemoteCommandRaw) (minMatches : ℕ) :
    Option (List (ℕ × List ℕ)) :=
  (runPairs cmds [] (combPairs cmds.length)).map
    (List.filter (fun g => decide (minMatches ≤ g.2.length)))

/-! ### IRRemoteFunction.fromIRSensor, after the capture loop

`fromIRSensor` groups the captured commands with `_groupCommands`
(default `minMatches=2`), picks the first group of maximal member count
in insertion order (a later group replaces the current best only when
strictly larger), prints a success or failure message, and finally calls
`IRRemoteFunction(functionName, irCommandMostCommon, TYPE.SINGLE)` on
both paths.  The constructor wraps a single `IRRemoteCommand` into a one
element tuple, but when nothing recurred `irCommandMostCommon` is `None`
and the constructor immediately evaluates `len(None)`, which raises
TypeError before its own arity validation can run.
-/

/-- The selection loop over `irCommandGroups.items()`: the running best
`(representative, member count)`. -/
def selectMostCommon (groups : List (ℕ × List ℕ)) : Option (ℕ × ℕ) :=
  groups.foldl
    (fun best g =>
      match best with
      | none => some (g.1, g.2.length)
      | some (bi, bn) => if bn < g.2.length then some (g.1, g.2.length) else some (bi, bn))
    none

/-- An `IRRemoteFunction` as far as the claims observe it: its name and
its command tuple (commands given by capture index). -/
structure IRRemoteFunctionModel where
  name : String
  irCommands : List ℕ
  deriving DecidableEq

/-- Model of `IRRemoteFunction.__init__` as called from `fromIRSensor` with
`functionType=TYPE.SINGLE` and `irRemoteCommands` either a single raw
command (wrapped into a one element tuple, passing the SINGLE arity
check) or `None`, on which `len(irRemoteCommands)` raises TypeError. -/
def irRemoteFunctionInit (functionName : String) (irCommandMostCommon : Option ℕ) :
    Except String IRRemoteFunctionModel :=
  match irCommandMostCommon with
  | none => Except.error "TypeError: object of type NoneType has no len"
  | some c => Except.ok ⟨functionName, [c]⟩

/-- Model of `IRRemoteFunction.fromIRSensor` from the point where the capture list
is complete: group, select the most common representative, construct. -/
def fromIRSensorModel (functionName : String) (irCommands : List IRRemoteCommandRaw) :
    Except String IRRemoteFunctionModel :=
  match groupCommands irCommands 2 with
  | none => Except.error "ZeroDivisionError"
  | some groups =>
    irRemoteFunctionInit functionName ((selectMostCommon groups).map (fun b => b.1))

/-! ### ACRemote.statusSet

`statusSet` submits the encoded command, then polls `statusRefresh` every
5 seconds while `time.time() < timeout` with `timeout = start + 30`, and
repeats the submit and poll cycle up to `retries = 5` times; the for
loop has no break, so its else clause raises TimeoutError whenever no
poll compared equal.  Wall clock time is idealised: each loop iteration
costs exactly the 5 second sleep and the poll itself is instantaneous,
so every 30 second window holds exactly 6 polls.  `reported k` is the
status the device reports at the k-th poll overall. -/

/-- The poll loop of one attempt: first poll index in
`[start, start + fuel)` whose reported status equals the target. -/
def findPoll (reported : ℕ → Status) (target : Status) (start : ℕ) : ℕ → Option ℕ
  | 0 => none
  | fuel + 1 =>
    if statusEq (reported start) target then some start
    else findPoll reported target (start + 1) fuel

/-- The retry loop of `statusSet`: returns the number of submissions
performed, with the successful poll index or the TimeoutError. -/
def statusSetGo (reported : ℕ → Status) (target : Status) : ℕ → ℕ → ℕ × Except String ℕ
  | tryNum, 0 => (tryNum, Except.error "FAILED to set status!")
  | tryNum, rem + 1 =>
    match findPoll reported target (6 * tryNum) 6 with
    | some k => (tryNum + 1, Except.ok k)
    | none => statusSetGo reported target (tryNum + 1) rem

/-- Model of `ACRemote.statusSet` with `retries = 5`. -/
def statusSet (reported : ℕ → Status) (target : Status) : ℕ × Except String ℕ :=
  statusSetGo reported target 0 5

/-! ### ACRemote.fanSpeedModeSet and ACRemote.swingModeSet

Both method bodies read
`self._status.fanSpeedModeSet(operatingMode)` resp.
`self._status.swingModeSet(operatingMode)` as their first statement, but
the name `operatingMode` is bound nowhere in their scopes: CPython looks
it up in the method locals (the parameters), then the module globals
(class bodies are not an enclosing scope for methods, so the
`Status.operatingMode` class attribute is invisible), then the builtins
(none of which carry this name), and raises NameError before
`Status.fanSpeedModeSet` or `statusSet` runs.  The model resolves the
name against the explicit scope lists taken from the source file; the
state returned on success would carry the new cached status and the
submitted command, so an error leaves both unchanged. -/

/-- Names bound at module level in pylookinremote.py: the imports and the
top level classes. -/
def moduleTopLevelNames : List String :=
  ["Enum", "combinations", "datetime", "ipaddress", "json", "pathlib", "random",
   "socket", "sys", "time", "urllib",
   "LOOKinRemote", "IRRemote", "ACRemote", "IRRemoteFunction", "IRRemoteCommand",
   "IRRemoteCommandUndefined", "IRRemoteCommandRaw"]

/-- State an `ACRemote` mutator can change: the cached `_status` and the
command paths submitted to the device so far. -/
structure ACRemoteState where
  status : Status
  submitted : List ℕ
  deriving DecidableEq

def fanSpeedModeSetRemote (st : ACRemoteState) (fanSpeedMode : FANSPEEDMODE) :
    Except String ACRemoteState :=
  if h : "operatingMode" ∈ "self" :: "fanSpeedMode" :: moduleTopLevelNames then
    absurd h (by decide)
  else
    Except.error "NameError: name operatingMode is not defined"

def swingModeSetRemote (st : ACRemoteState) (swingMode : SWINGMODE) :
    Except String ACRemoteState :=
  if h : "operatingMode" ∈ "self" :: "swingMode" :: moduleTopLevelNames then
    absurd h (by decide)
  else
    Except.error "NameError: name operatingMode is not defined"

/-- The number of differing indices of two equal length sequences, as the
specification states it: an index differs when the relative sample
difference `pctDiff` exceeds 10 percent. -/
def diffCount (a b : List ℤ) : ℕ :=
  (a.zip b).countP (fun p => decide (pctDiff p.1 p.2 > 10 / 100))

/-- A concrete target status used to exercise `statusSet`. -/
def demoTarget : Status := ⟨.COOL, 22, .MEDIUM, .UNKNOWN00⟩

/-- A device that reports the target status at the ninth poll (index 8,
inside the second 30 second window) and an unrelated status before. -/
def demoReported : ℕ → Status :=
  fun k => if k = 8 then demoTarget else ⟨.OFF, 23, .AUTO, .UNKNOWN00⟩

/-- A device that never reports the target status. -/
def demoMissReported : ℕ → Status :=
  fun _ => ⟨.OFF, 23, .AUTO, .UNKNOWN00⟩

/-! ### Theorems -/

example : pyHashInt (-1) = -2 := by decide

example : pyHashInt (-2) = -2 := by decide

example : pyHashSeq [(-1 : ℤ)] = pyHashSeq [(-2 : ℤ)] := by decide

example : isSimilar ⟨[1000], 38000⟩ ⟨[100000], 38000⟩ = some false := by decide

example : isSimilar ⟨[0, 1], 38000⟩ ⟨[0, 2], 38000⟩ = none := by decide

/-- Restatement of `pctDiff` over the natural number numerator and denominator
that the integer encoding in `compareCmds` uses. -/
theorem pctDiff_eq (l r : ℤ) :
    pctDiff l r = (((|l| - |r|).natAbs : ℚ)) / ((l.natAbs : ℚ) + (r.natAbs : ℚ)) := by
  simp only [pctDiff, Int.cast_natAbs, Int.cast_abs]
  push_cast
  rfl

/-- A ratio of naturals exceeds 10 percent iff ten times the numerator
exceeds the denominator. -/
theorem natRatio_gt_tenth (N D : ℕ) (h : D ≠ 0) :
    ((10 : ℚ) / 100 < (N : ℚ) / (D : ℚ)) ↔ D < 10 * N := by
  have hD : (0 : ℚ) < (D : ℚ) := by exact_mod_cast Nat.pos_of_ne_zero h
  rw [div_lt_div_iff₀ (by norm_num) hD]
  constructor
  · intro hlt
    have h2 : (D : ℚ) < 10 * (N : ℚ) := by linarith
    exact_mod_cast h2
  · intro hlt
    have h2 : (D : ℚ) < 10 * (N : ℚ) := by exact_mod_cast hlt
    linarith

/-- A ratio of naturals is at most 2 percent iff fifty times the numerator
is at most the denominator. -/
theorem natRatio_le_fiftieth (d n : ℕ) (h : n ≠ 0) :
    ((d : ℚ) / (n : ℚ) ≤ 2 / 100) ↔ 50 * d ≤ n := by
  have hn : (0 : ℚ) < (n : ℚ) := by exact_mod_cast Nat.pos_of_ne_zero h
  rw [div_le_div_iff₀ hn (by norm_num)]
  constructor
  · intro hle
    have h2 : 50 * (d : ℚ) ≤ (n : ℚ) := by linarith
    exact_mod_cast h2
  · intro hle
    have h2 : 50 * (d : ℚ) ≤ (n : ℚ) := by exact_mod_cast hle
    linarith

/-- The integer encoding of the per sample threshold test used by
`compareCmds` agrees with the rational level formula `pctDiff > 0.10`
whenever the denominator is nonzero. -/
theorem pctDiff_gt_iff (l r : ℤ) (h : l.natAbs + r.natAbs ≠ 0) :
    pctDiff l r > 10 / 100 ↔ l.natAbs + r.natAbs < 10 * (|l| - |r|).natAbs := by
  rw [pctDiff_eq, gt_iff_lt,
    show ((l.natAbs : ℚ) + (r.natAbs : ℚ)) = ((l.natAbs + r.natAbs : ℕ) : ℚ) by push_cast; rfl]
  exact natRatio_gt_tenth _ _ h

example : (fromStatusBytes 0x2A5B).map toStatusBytes = some 0x2A5B := by decide

example : fromStatusBytes 0x17A3 =
    some ⟨.AUTO, 23, .AUTO, .UNKNOWN03⟩ := by decide

example : toStatusBytes ⟨.COOL, 22, .MEDIUM, .UNKNOWN00⟩ = 0x2620 := by decide

/-! ### Bit arithmetic helpers for the codec proofs -/

theorem lor_eq_add_of (x y s : ℕ) (hx : x % 2 ^ s = 0) (hy : y < 2 ^ s) :
    x ||| y = x + y := by
  have hsr : (x ||| y) >>> s = (x >>> s) ||| (y >>> s) := by
    apply Nat.eq_of_testBit_eq
    intro i
    simp
  have hmod : (x ||| y) % 2 ^ s = y := by
    rw [← Nat.and_pow_two_sub_one_eq_mod, Nat.and_distrib_right,
      Nat.and_pow_two_sub_one_eq_mod, Nat.and_pow_two_sub_one_eq_mod, hx,
      Nat.mod_eq_of_lt hy]
    simp
  have hdiv : (x ||| y) / 2 ^ s = x / 2 ^ s := by
    have h0 : y >>> s = 0 := by
      rw [Nat.shiftRight_eq_div_pow]
      exact Nat.div_eq_of_lt hy
    have h := hsr
    rw [h0] at h
    simpa [Nat.shiftRight_eq_div_pow] using h
  calc x ||| y = 2 ^ s * ((x ||| y) / 2 ^ s) + (x ||| y) % 2 ^ s := by
        rw [Nat.div_add_mod]
    _ = 2 ^ s * (x / 2 ^ s) + y := by rw [hdiv, hmod]
    _ = x + y := by
        rw [Nat.mul_div_cancel' (Nat.dvd_of_mod_eq_zero hx)]

theorem and_mask (x k s : ℕ) : x &&& ((2 ^ k - 1) <<< s) = ((x >>> s) % 2 ^ k) <<< s := by
  apply Nat.eq_of_testBit_eq
  intro i
  simp only [Nat.testBit_and, Nat.testBit_shiftLeft, Nat.testBit_shiftRight,
    Nat.testBit_mod_two_pow, Nat.testBit_two_pow_sub_one]
  by_cases hsi : s ≤ i
  · simp [hsi, Nat.add_sub_cancel' hsi, Bool.and_comm, Bool.and_left_comm]
  · simp [hsi]

/-- Restatement of `fromStatusBytes` in terms of the nibble decomposition of its input. -/
theorem fromStatusBytes_eq (x : ℕ) :
    fromStatusBytes x = statusInit (x / 4096 % 16 * 4096)
      ((x / 256 % 16 + 16 : ℕ) : ℤ) (x / 16 % 16 * 16) (x % 16) := by
  have h1 : x &&& 0xF000 = x / 4096 % 16 * 4096 := by
    have := and_mask x 4 12
    norm_num [Nat.shiftLeft_eq, Nat.shiftRight_eq_div_pow] at this
    simpa using this
  have h2 : (x &&& 0x0F00) >>> 8 = x / 256 % 16 := by
    have := and_mask x 4 8
    norm_num [Nat.shiftLeft_eq, Nat.shiftRight_eq_div_pow] at this
    rw [this, Nat.shiftRight_eq_div_pow]
    norm_num [Nat.mul_div_cancel]
  have h3 : x &&& 0x00F0 = x / 16 % 16 * 16 := by
    have := and_mask x 4 4
    norm_num [Nat.shiftLeft_eq, Nat.shiftRight_eq_div_pow] at this
    simpa using this
  have h4 : x &&& 0x000F = x % 16 := by
    have := Nat.and_pow_two_sub_one_eq_mod x 4
    norm_num at this
    simpa using this
  rw [fromStatusBytes, h1, h2, h3, h4]

theorem om_fromValue_nibble (a : ℕ) (h : a < 16) :
    ∃ m : OPERATINGMODE, OPERATINGMODE.fromValue (a * 4096) = some m ∧ m.value = a * 4096 := by
  interval_cases a <;> exact ⟨_, rfl, rfl⟩

theorem fan_fromValue_nibble (c : ℕ) (h : c < 16) :
    ∃ m : FANSPEEDMODE, FANSPEEDMODE.fromValue (c * 16) = some m ∧ m.value = c * 16 := by
  interval_cases c <;> exact ⟨_, rfl, rfl⟩

theorem sw_fromValue_nibble (d : ℕ) (h : d < 16) :
    ∃ m : SWINGMODE, SWINGMODE.fromValue d = some m ∧ m.value = d := by
  interval_cases d <;> exact ⟨_, rfl, rfl⟩

theorem tempTargetSet_of_mem (t : ℤ) (h1 : 16 ≤ t) (h2 : t ≤ 31) :
    tempTargetSet t = some t := by
  rw [tempTargetSet, if_neg (by omega)]
  congr 1
  omega

theorem statusBytes_roundTrip (x : ℕ) (hx : x < 65536) :
    (fromStatusBytes x).map toStatusBytes = some x := by
  obtain ⟨om, hom, homv⟩ := om_fromValue_nibble (x / 4096 % 16) (Nat.mod_lt _ (by norm_num))
  obtain ⟨fan, hfan, hfanv⟩ := fan_fromValue_nibble (x / 16 % 16) (Nat.mod_lt _ (by norm_num))
  obtain ⟨sw, hsw, hswv⟩ := sw_fromValue_nibble (x % 16) (Nat.mod_lt _ (by norm_num))
  have htemp := tempTargetSet_of_mem ((x / 256 % 16 + 16 : ℕ) : ℤ) (by omega) (by omega)
  rw [fromStatusBytes_eq]
  simp only [statusInit, hom, htemp, hfan, hsw, Option.bind_eq_bind, Option.some_bind,
    Option.map_some, Option.map_some', Option.some.injEq, toStatusBytes]
  rw [homv, hfanv, hswv, Nat.shiftLeft_eq,
    show ((((x / 256 % 16 + 16 : ℕ) : ℤ) - 16).toNat) = x / 256 % 16 by omega]
  have e1 : (x / 4096 % 16 * 4096) ||| (x / 256 % 16 * 256)
      = x / 4096 % 16 * 4096 + x / 256 % 16 * 256 :=
    lor_eq_add_of _ _ 12 (by norm_num; try omega) (by norm_num; try omega)
  have e2 : (x / 4096 % 16 * 4096 + x / 256 % 16 * 256) ||| (x / 16 % 16 * 16)
      = x / 4096 % 16 * 4096 + x / 256 % 16 * 256 + x / 16 % 16 * 16 :=
    lor_eq_add_of _ _ 8 (by norm_num; try omega) (by norm_num; try omega)
  have e3 : (x / 4096 % 16 * 4096 + x / 256 % 16 * 256 + x / 16 % 16 * 16) ||| (x % 16)
      = x / 4096 % 16 * 4096 + x / 256 % 16 * 256 + x / 16 % 16 * 16 + x % 16 :=
    lor_eq_add_of _ _ 4 (by norm_num; try omega) (by norm_num; try omega)
  rw [e1, e2, e3]
  omega

theorem om_fromValue_value (m : OPERATINGMODE) :
    OPERATINGMODE.fromValue m.value = some m := by
  cases m <;> rfl

theorem fan_fromValue_value (m : FANSPEEDMODE) :
    FANSPEEDMODE.fromValue m.value = some m := by
  cases m <;> rfl

theorem sw_fromValue_value (m : SWINGMODE) :
    SWINGMODE.fromValue m.value = some m := by
  cases m <;> rfl

theorem om_value_bounds (m : OPERATINGMODE) : m.value % 4096 = 0 ∧ m.value < 65536 := by
  cases m <;> exact ⟨rfl, by decide⟩

theorem fan_value_bounds (m : FANSPEEDMODE) : m.value % 16 = 0 ∧ m.value < 256 := by
  cases m <;> exact ⟨rfl, by decide⟩

theorem sw_value_bounds (m : SWINGMODE) : m.value < 16 := by
  cases m <;> decide

theorem status_roundTrip (om : OPERATINGMODE) (fan : FANSPEEDMODE) (sw : SWINGMODE)
    (t : ℤ) (h1 : 16 ≤ t) (h2 : t ≤ 31) :
    (fromStatusBytes (toStatusBytes ⟨om, t, fan, sw⟩)).map
      (fun s => statusEq s ⟨om, t, fan, sw⟩) = some true := by
  obtain ⟨hom1, hom2⟩ := om_value_bounds om
  obtain ⟨hfan1, hfan2⟩ := fan_value_bounds fan
  have hsw1 := sw_value_bounds sw
  have hb : (t - 16).toNat < 16 := by omega
  have henc : toStatusBytes ⟨om, t, fan, sw⟩
      = om.value + (t - 16).toNat * 256 + fan.value + sw.value := by
    rw [toStatusBytes]
    simp only [Nat.shiftLeft_eq]
    norm_num
    have e1 : om.value ||| (t - 16).toNat * 256 = om.value + (t - 16).toNat * 256 :=
      lor_eq_add_of _ _ 12 (by norm_num; try omega) (by norm_num; try omega)
    have e2 : (om.value + (t - 16).toNat * 256) ||| fan.value
        = om.value + (t - 16).toNat * 256 + fan.value :=
      lor_eq_add_of _ _ 8 (by norm_num; try omega) (by norm_num; try omega)
    have e3 : (om.value + (t - 16).toNat * 256 + fan.value) ||| sw.value
        = om.value + (t - 16).toNat * 256 + fan.value + sw.value :=
      lor_eq_add_of _ _ 4 (by norm_num; try omega) (by norm_num; try omega)
    rw [e1, e2, e3]
  rw [henc, fromStatusBytes_eq]
  have ha : (om.value + (t - 16).toNat * 256 + fan.value + sw.value) / 4096 % 16 * 4096
      = om.value := by omega
  have hbb : (om.value + (t - 16).toNat * 256 + fan.value + sw.value) / 256 % 16
      = (t - 16).toNat := by omega
  have hc : (om.value + (t - 16).toNat * 256 + fan.value + sw.value) / 16 % 16 * 16
      = fan.value := by omega
  have hd : (om.value + (t - 16).toNat * 256 + fan.value + sw.value) % 16
      = sw.value := by omega
  rw [ha, hbb, hc, hd]
  have htemp := tempTargetSet_of_mem (((t - 16).toNat + 16 : ℕ) : ℤ) (by omega) (by omega)
  simp only [statusInit, om_fromValue_value, fan_fromValue_value, sw_fromValue_value,
    htemp, Option.bind_eq_bind, Option.some_bind, Option.map_some, Option.map_some',
    Option.some.injEq, statusEq]
  simp only [decide_eq_true_eq, Bool.and_eq_true]
  refine ⟨⟨⟨?_, ?_⟩, ?_⟩, ?_⟩ <;> first | trivial | omega

example : combPairs 4 = [(0, 1), (0, 2), (0, 3), (1, 2), (1, 3), (2, 3)] := by decide

example :
    groupCommands [⟨[1000], 38000⟩, ⟨[1000], 38000⟩, ⟨[100000], 38000⟩] 2
      = some [(0, [0, 1])] := by decide

example :
    groupCommands [⟨[1000], 38000⟩, ⟨[100000], 38000⟩] 2 = some [] := by decide

theorem isSimilar_self (a : IRRemoteCommandRaw) : isSimilar a a = some true := by
  simp [isSimilar, eqRaw]

theorem findPoll_none (reported : ℕ → Status) (target : Status) (start fuel : ℕ)
    (h : ∀ k, start ≤ k → k < start + fuel → statusEq (reported k) target = false) :
    findPoll reported target start fuel = none := by
  induction fuel generalizing start with
  | zero => rfl
  | succ n ih =>
    rw [findPoll, if_neg (by simp [h start (Nat.le_refl start) (by omega)])]
    exact ih (start + 1) (fun k hk1 hk2 => h k (by omega) (by omega))

theorem findPoll_some (reported : ℕ → Status) (target : Status) (start fuel k : ℕ)
    (hk1 : start ≤ k) (hk2 : k < start + fuel)
    (heq : statusEq (reported k) target = true)
    (hbefore : ∀ j, start ≤ j → j < k → statusEq (reported j) target = false) :
    findPoll reported target start fuel = some k := by
  induction fuel generalizing start with
  | zero => omega
  | succ n ih =>
    by_cases hks : k = start
    · subst hks
      rw [findPoll, if_pos (by simp [heq])]
    · rw [findPoll, if_neg (by simp [hbefore start (Nat.le_refl start) (by omega)])]
      exact ih (start + 1) (by omega) (by omega) (fun j hj1 hj2 => hbefore j (by omega) hj2)

/-! ### The claims -/

set_option maxRecDepth 8000 in
/-- Claim C1: the specification states that `isSimilar(a, b)` is false
whenever the two sequences have different lengths, and the function
computes that decision in its `isMatch` variable (also printed), but it
returns `commandDiffThreshold >= commandDiffPct` without the length
conjunct.  At 51 versus 50 copies of the sample 100 the length
difference alone gives a ratio of 1/51, at most 2 percent, so
`isSimilar` returns True although the lengths differ: the code
contradicts its own printed match classification. -/
theorem isSimilar_true_despite_length_mismatch :
    (List.replicate 51 (100 : ℤ)).length ≠ (List.replicate 50 (100 : ℤ)).length
      ∧ isSimilar ⟨List.replicate 51 100, 38000⟩ ⟨List.replicate 50 100, 38000⟩
        = some true := by
  exact ⟨by decide, by decide⟩

/-- Claim C2: decoding any 16 bit status code and re-encoding it yields
the code back, and the decode never fails, every 4 bit field subrange
mapping onto a valid field value (the temperature field decodes as
`((x & 0x0F00) >> 8) + 16`, always inside [16, 31]). -/
theorem statusBytes_roundTrip_c2 (x : ℕ) (hx : x < 65536) :
    (fromStatusBytes x).map toStatusBytes = some x :=
  statusBytes_roundTrip x hx

theorem statusBytes_roundTrip_c2_witness :
    10843 < 65536 ∧ (fromStatusBytes 10843).map toStatusBytes = some 10843 :=
  ⟨by decide, statusBytes_roundTrip_c2 10843 (by decide)⟩

/-- Claim C3: encoding any structured status whose mode fields are
enumeration members and whose temperature lies in [16, 31], then
decoding the 16 bit code back, yields a status equal to the original
under the `Status` equality test. -/
theorem status_roundTrip_c3 (om : OPERATINGMODE) (fan : FANSPEEDMODE) (sw : SWINGMODE)
    (t : ℤ) (h1 : 16 ≤ t) (h2 : t ≤ 31) :
    (fromStatusBytes (toStatusBytes ⟨om, t, fan, sw⟩)).map
      (fun s => statusEq s ⟨om, t, fan, sw⟩) = some true :=
  status_roundTrip om fan sw t h1 h2

theorem status_roundTrip_c3_witness :
    (16 : ℤ) ≤ 22 ∧ (22 : ℤ) ≤ 31 ∧
      (fromStatusBytes (toStatusBytes ⟨.HEAT, 22, .AUTO, .UNKNOWN05⟩)).map
        (fun s => statusEq s ⟨.HEAT, 22, .AUTO, .UNKNOWN05⟩) = some true :=
  ⟨by decide, by decide, status_roundTrip_c3 .HEAT .AUTO .UNKNOWN05 22 (by decide) (by decide)⟩

/-- Claim C4 counterexample: at the equal length pair ([0, 1], [0, 2])
the similarity test does not return a boolean at all: the first zipped
pair has `abs(0) + abs(0) == 0` and the Python comparison raises
ZeroDivisionError (modelled by `none`), so the claimed biconditional
about the returned value fails at this input. -/
theorem isSimilar_zeroDivision_counterexample :
    (⟨[0, 1], 38000⟩ : IRRemoteCommandRaw).sequence.length
        = (⟨[0, 2], 38000⟩ : IRRemoteCommandRaw).sequence.length
      ∧ isSimilar ⟨[0, 1], 38000⟩ ⟨[0, 2], 38000⟩ = none := by
  exact ⟨by decide, by decide⟩

set_option maxRecDepth 8000 in
/-- Claim C4 (amended): for equal length signals whose stored hashes
differ (so the `__eq__` shortcut does not fire) and where no index has
both samples zero (otherwise the comparison raises ZeroDivisionError
instead of returning), `isSimilar` counts an index as differing exactly
when `|(|a[i]| - |b[i]|)| / (|a[i]| + |b[i]|)` exceeds 0.10 and returns
true iff that count divided by the length is at most 0.02; the threshold
is inclusive: at length 100, two differing samples give similar, three
do not. -/
theorem isSimilar_equalLength_characterization :
    (∀ a b : IRRemoteCommandRaw,
      a.sequence.length = b.sequence.length →
      eqRaw a b = false →
      (∀ p ∈ a.sequence.zip b.sequence, p.1.natAbs + p.2.natAbs ≠ 0) →
      isSimilar a b
        = some (decide ((diffCount a.sequence b.sequence : ℚ)
            / (a.sequence.length : ℚ) ≤ 2 / 100)))
    ∧ isSimilar ⟨List.replicate 100 1000, 38000⟩
        ⟨List.replicate 98 1000 ++ [2000, 2000], 38000⟩ = some true
    ∧ isSimilar ⟨List.replicate 100 1000, 38000⟩
        ⟨List.replicate 97 1000 ++ [2000, 2000, 2000], 38000⟩ = some false := by
  refine ⟨?_, by decide, by decide⟩
  intro a b hlen heq hz
  have hlen0 : a.sequence.length ≠ 0 := by
    intro h0
    have ha0 : a.sequence = [] := List.length_eq_zero.mp h0
    have hb0 : b.sequence = [] := List.length_eq_zero.mp (by omega)
    rw [eqRaw, ha0, hb0] at heq
    simp at heq
  have hany : (a.sequence.zip b.sequence).any (fun p => p.1.natAbs + p.2.natAbs == 0)
      = false := by
    simp only [List.any_eq_false, beq_iff_eq]
    exact hz
  have hmax : max a.sequence.length b.sequence.length = a.sequence.length := by omega
  have hd0 : ((a.sequence.length : ℤ) - b.sequence.length).natAbs = 0 := by omega
  have hcnt : (a.sequence.zip b.sequence).countP
      (fun p => decide (p.1.natAbs + p.2.natAbs < 10 * (|p.1| - |p.2|).natAbs))
      = diffCount a.sequence b.sequence := by
    rw [diffCount]
    apply List.countP_congr
    intro p hp
    simp only [decide_eq_true_eq]
    exact (pctDiff_gt_iff p.1 p.2 (hz p hp)).symm
  rw [isSimilar, if_neg (by simp [heq]), compareCmds]
  simp only [hany, Bool.false_eq_true, if_false, hmax, hd0, hcnt, zero_add]
  rw [if_neg (by simp [hlen0])]
  congr 1
  rw [decide_eq_decide]
  exact (natRatio_le_fiftieth (diffCount a.sequence b.sequence) a.sequence.length hlen0).symm

theorem isSimilar_equalLength_characterization_witness :
    ((⟨[100, 200, 300], 38000⟩ : IRRemoteCommandRaw).sequence.length
        = (⟨[105, 290, 300], 38000⟩ : IRRemoteCommandRaw).sequence.length
      ∧ eqRaw ⟨[100, 200, 300], 38000⟩ ⟨[105, 290, 300], 38000⟩ = false
      ∧ (∀ p ∈ (⟨[100, 200, 300], 38000⟩ : IRRemoteCommandRaw).sequence.zip
            (⟨[105, 290, 300], 38000⟩ : IRRemoteCommandRaw).sequence,
          p.1.natAbs + p.2.natAbs ≠ 0))
    ∧ isSimilar ⟨[100, 200, 300], 38000⟩ ⟨[105, 290, 300], 38000⟩
        = some (decide ((diffCount [100, 200, 300] [105, 290, 300] : ℚ) / (3 : ℚ)
            ≤ 2 / 100)) :=
  ⟨⟨by decide, by decide, by decide⟩,
    isSimilar_equalLength_characterization.1 ⟨[100, 200, 300], 38000⟩
      ⟨[105, 290, 300], 38000⟩ (by decide) (by decide) (by decide)⟩

/-- Claim C5: the specification states that a capture in which no
similarity group reaches the threshold reports an explicit nothing
learned outcome without an exception, and the main guard in the source
(`if newIRFunction is not None`) expects the same; but on that path
`fromIRSensor` passes `irCommandMostCommon = None` into the
`IRRemoteFunction` constructor, whose `len(irRemoteCommands)` raises
TypeError.  Evaluated at a two signal capture with no similar pair. -/
theorem fromIRSensor_nothingLearned_typeError :
    fromIRSensorModel "power" [⟨[1000], 38000⟩, ⟨[100000], 38000⟩]
      = Except.error "TypeError: object of type NoneType has no len" := by rfl

/-- Claim C6: on five mutually similar copies of one signal plus one
signal similar to none of them, placed at any of the six positions of
the input list, the clustering returns exactly one group, that group
holds exactly the five copies (by input index), and the odd signal is a
member of no group, for any `minMatches` at most 5; and in general every
returned group has at least `minMatches` members. -/
theorem groupCommands_fiveCopies :
    (∀ (a b : IRRemoteCommandRaw) (m : ℕ),
      m ≤ 5 →
      isSimilar a b = some false →
      isSimilar b a = some false →
      groupCommands [a, a, a, a, a, b] m = some [(0, [0, 1, 2, 3, 4])]
        ∧ groupCommands [a, a, a, a, b, a] m = some [(0, [0, 1, 2, 3, 5])]
        ∧ groupCommands [a, a, a, b, a, a] m = some [(0, [0, 1, 2, 4, 5])]
        ∧ groupCommands [a, a, b, a, a, a] m = some [(0, [0, 1, 3, 4, 5])]
        ∧ groupCommands [a, b, a, a, a, a] m = some [(0, [0, 2, 3, 4, 5])]
        ∧ groupCommands [b, a, a, a, a, a] m = some [(1, [1, 2, 3, 4, 5])])
    ∧ (∀ (cmds : List IRRemoteCommandRaw) (m : ℕ) (res : List (ℕ × List ℕ)),
      groupCommands cmds m = some res → ∀ g ∈ res, m ≤ g.2.length) := by
  constructor
  · intro a b m hm hab hba
    have hself : isSimilar a a = some true := isSimilar_self a
    have hcp : combPairs 6 =
        [(0,1),(0,2),(0,3),(0,4),(0,5),(1,2),(1,3),(1,4),(1,5),
         (2,3),(2,4),(2,5),(3,4),(3,5),(4,5)] := by decide
    refine ⟨?_, ?_, ?_, ?_, ?_, ?_⟩ <;>
      (rw [groupCommands]
       simp only [List.length_cons, List.length_nil]
       rw [show (0+1+1+1+1+1+1 : ℕ) = 6 by rfl]
       rw [hcp]
       simp [runPairs, processPair, simAt, hself, hab, hba, isRep, addMember, scanGroups]
       exact hm)
  · intro cmds m res h g hg
    rw [groupCommands] at h
    obtain ⟨st, hst, hfil⟩ := Option.map_eq_some'.mp h
    subst hfil
    have hmem := (List.mem_filter.mp hg).2
    exact of_decide_eq_true hmem

theorem groupCommands_fiveCopies_witness :
    (2 ≤ 5
      ∧ isSimilar ⟨[1000], 38000⟩ ⟨[100000], 38000⟩ = some false
      ∧ isSimilar ⟨[100000], 38000⟩ ⟨[1000], 38000⟩ = some false)
    ∧ groupCommands [⟨[1000], 38000⟩, ⟨[1000], 38000⟩, ⟨[1000], 38000⟩,
        ⟨[1000], 38000⟩, ⟨[1000], 38000⟩, ⟨[100000], 38000⟩] 2
      = some [(0, [0, 1, 2, 3, 4])] :=
  ⟨⟨by decide, by decide, by decide⟩,
    (groupCommands_fiveCopies.1 ⟨[1000], 38000⟩ ⟨[100000], 38000⟩ 2
      (by decide) (by decide) (by decide)).1⟩

/-- Claim C7: under the idealised clock (exactly six 5 second polls per
30 second window), if the device never reports the target status the
call performs exactly 5 submit and poll attempts and ends in the
TimeoutError, never a silent return; and if some poll inside the five
windows reports the target, the call returns success at the first such
poll, having submitted once per window opened so far. -/
theorem statusSet_protocol :
    ∀ (reported : ℕ → Status) (target : Status),
      ((∀ k, statusEq (reported k) target = false) →
        statusSet reported target = (5, Except.error "FAILED to set status!"))
      ∧ (∀ k, k < 30 → statusEq (reported k) target = true →
          (∀ j, j < k → statusEq (reported j) target = false) →
          statusSet reported target = (k / 6 + 1, Except.ok k)) := by
  intro reported target
  constructor
  · intro h
    have hfp : ∀ s, findPoll reported target s 6 = none :=
      fun s => findPoll_none reported target s 6 (fun j h1 h2 => h j)
    simp [statusSet, statusSetGo, hfp]
  · intro k hk heq hbefore
    have hwin : ∀ t : ℕ, 6 * t + 6 ≤ k → findPoll reported target (6 * t) 6 = none :=
      fun t ht => findPoll_none reported target (6 * t) 6
        (fun j hj1 hj2 => hbefore j (by omega))
    have hhit : findPoll reported target (6 * (k / 6)) 6 = some k :=
      findPoll_some reported target (6 * (k / 6)) 6 k (by omega) (by omega) heq
        (fun j hj1 hj2 => hbefore j hj2)
    set a := k / 6 with ha
    have ha5 : a < 5 := by omega
    interval_cases a
    · norm_num at hhit
      simp [statusSet, statusSetGo, hhit]
    · norm_num at hhit
      have w0 := hwin 0 (by omega)
      norm_num at w0
      simp [statusSet, statusSetGo, w0, hhit]
    · norm_num at hhit
      have w0 := hwin 0 (by omega)
      have w1 := hwin 1 (by omega)
      norm_num at w0 w1
      simp [statusSet, statusSetGo, w0, w1, hhit]
    · norm_num at hhit
      have w0 := hwin 0 (by omega)
      have w1 := hwin 1 (by omega)
      have w2 := hwin 2 (by omega)
      norm_num at w0 w1 w2
      simp [statusSet, statusSetGo, w0, w1, w2, hhit]
    · norm_num at hhit
      have w0 := hwin 0 (by omega)
      have w1 := hwin 1 (by omega)
      have w2 := hwin 2 (by omega)
      have w3 := hwin 3 (by omega)
      norm_num at w0 w1 w2 w3
      simp [statusSet, statusSetGo, w0, w1, w2, w3, hhit]

theorem statusSet_protocol_witness :
    (8 < 30
      ∧ statusEq (demoReported 8) demoTarget = true
      ∧ (∀ j, j < 8 → statusEq (demoReported j) demoTarget = false)
      ∧ statusSet demoReported demoTarget = (2, Except.ok 8))
    ∧ statusSet demoMissReported demoTarget = (5, Except.error "FAILED to set status!") :=
  ⟨⟨by decide, by decide, by decide,
      (statusSet_protocol demoReported demoTarget).2 8 (by decide) (by decide)
        (by decide)⟩,
    (statusSet_protocol demoMissReported demoTarget).1 (fun k => by
      have hk : demoMissReported k = ⟨.OFF, 23, .AUTO, .UNKNOWN00⟩ := rfl
      rw [hk]
      decide)⟩

/-- Claim C8: the temperature setter raises a validation error for 15,
for 32, and for every value outside [16, 31] (the setter is a pure
method on the status value, so no network interaction can precede the
check), while the boundary values 16 and 31 are accepted and stored. -/
theorem tempTargetSet_bounds :
    tempTargetSet 15 = none ∧ tempTargetSet 32 = none
      ∧ (∀ t : ℤ, t < 16 ∨ 31 < t → tempTargetSet t = none)
      ∧ tempTargetSet 16 = some 16 ∧ tempTargetSet 31 = some 31 := by
  refine ⟨by decide, by decide, ?_, by decide, by decide⟩
  intro t ht
  rw [tempTargetSet, if_pos (by omega)]

theorem tempTargetSet_bounds_witness :
    ((-3 : ℤ) < 16 ∨ (31 : ℤ) < -3) ∧ tempTargetSet (-3) = none :=
  ⟨Or.inl (by decide), tempTargetSet_bounds.2.2.1 (-3) (Or.inl (by decide))⟩

/-- Claim C9 counterexample: the raw command equality compares only the
stored CPython hashes, and CPython hashes -1 and -2 both to -2, so the
one element sequences (-1) and (-2) are distinct yet compare identical;
the claimed direction that signals with different sequences are never
identical fails at this input. -/
theorem eqRaw_hash_collision_counterexample :
    eqRaw ⟨[-1], 38000⟩ ⟨[-2], 38000⟩ = true
      ∧ (⟨[-1], 38000⟩ : IRRemoteCommandRaw).sequence
        ≠ (⟨[-2], 38000⟩ : IRRemoteCommandRaw).sequence := by
  exact ⟨by decide, by decide⟩

/-- Claim C9 (amended): the identity test returns true iff the CPython
hashes of the two sequences coincide; element-wise equal sequences are
therefore always identical, regardless of the carrier frequencies, but
distinct sequences with colliding hashes also compare identical. -/
theorem eqRaw_iff_hashEq :
    ∀ a b : IRRemoteCommandRaw,
      (eqRaw a b = true ↔ pyHashSeq a.sequence = pyHashSeq b.sequence)
      ∧ (a.sequence = b.sequence → eqRaw a b = true) := by
  intro a b
  refine ⟨?_, ?_⟩
  · simp [eqRaw]
  · intro h
    simp [eqRaw, h]

theorem eqRaw_iff_hashEq_witness :
    ((⟨[5], 1000⟩ : IRRemoteCommandRaw).sequence
        = (⟨[5], 2000⟩ : IRRemoteCommandRaw).sequence)
      ∧ eqRaw ⟨[5], 1000⟩ ⟨[5], 2000⟩ = true :=
  ⟨rfl, (eqRaw_iff_hashEq ⟨[5], 1000⟩ ⟨[5], 2000⟩).2 rfl⟩

/-- Claim C10: for every cached state and every argument, the remote
level mutators `fanSpeedModeSet` and `swingModeSet` raise NameError on
the unbound name `operatingMode` while evaluating the argument of their
first statement, before any status mutation or command submission, so
the error result carries no changed state. -/
theorem remote_mode_setters_nameError :
    ∀ (st : ACRemoteState) (fan : FANSPEEDMODE) (sw : SWINGMODE),
      fanSpeedModeSetRemote st fan
          = Except.error "NameError: name operatingMode is not defined"
        ∧ swingModeSetRemote st sw
          = Except.error "NameError: name operatingMode is not defined" := by
  intro st fan sw
  exact ⟨rfl, rfl⟩

end PyLookinRemote
